import Mathlib

/-!
Shallow embedding of `biz/gitea/webhook_handler.py` (AI-Codereview-GIt).

HTTP transport (`requests`) is an external collaborator: each modelled
operation takes the upstream responses it would observe as explicit
arguments (an oracle indexed by attempt number where the code retries), and
operations that issue requests whose arguments matter return, alongside
their result, the list of requests they issued.  Python dict payloads are
modelled by the `Json` type; `d.get(k, default)` on a non-dict receiver is
an `AttributeError`, modelled by `Except`.

Python string operations are modelled by structural (or fuelled, hence
kernel-computable) functions over `List Char`, so every definition can be
evaluated on concrete inputs by `decide` or `rfl`.
-/

/-! ## Python string primitives -/

/-- Char-list prefix test: `isPrefixC p s` is true when `p` is a prefix of
`s`. -/
def isPrefixC : List Char → List Char → Bool
  | [], _ => true
  | _ :: _, [] => false
  | p :: ps, c :: cs => p == c && isPrefixC ps cs

/-- Python `s.startswith(pre)`. -/
def pyStartsWith (s pre : String) : Bool :=
  isPrefixC pre.data s.data

/-- Python `s.endswith(suffix)`. -/
def pyEndsWith (s suffix : String) : Bool :=
  isPrefixC suffix.data.reverse s.data.reverse

/-- Splitting scan behind `pySplit`, fuelled by the length of the remaining
text (the fuel-zero arm is unreachable when the initial fuel is the text's
length, since the separator is non-empty). -/
def splitOnC (sep : List Char) : Nat → List Char → List Char → List (List Char)
  | _, [], acc => [acc.reverse]
  | 0, text, acc => [acc.reverse ++ text]
  | fuel + 1, c :: rest, acc =>
    if isPrefixC sep (c :: rest) then
      acc.reverse :: splitOnC sep fuel ((c :: rest).drop sep.length) []
    else
      splitOnC sep fuel rest (c :: acc)

/-- Python `s.split(sep)` for a non-empty separator (the source only splits
on `","` and `"\n"`): one part per separator occurrence plus one, so
`"".split(sep) = [""]`.  For an empty separator it returns `[s]`, matching
`String.splitOn`. -/
def pySplit (s sep : String) : List String :=
  if sep.data.isEmpty then [s]
  else (splitOnC sep.data s.data.length s.data []).map fun cs => ⟨cs⟩

/-- Python substring test `sub in s`: the empty string is contained in every
string, and otherwise `sub` occurs in `s` exactly when splitting on it
yields more than one part. -/
def pyContains (s sub : String) : Bool :=
  sub.data.isEmpty || (pySplit s sub).length != 1

/-- Python `s.strip()` with no argument: leading and trailing whitespace
removed. -/
def pyStrip (s : String) : String :=
  ⟨((s.data.dropWhile Char.isWhitespace).reverse.dropWhile Char.isWhitespace).reverse⟩

/-- Replacement scan behind `pyReplace`, fuelled by the length of the
remaining text. -/
def replaceC (pattern repl : List Char) : Nat → List Char → List Char
  | _, [] => []
  | 0, text => text
  | fuel + 1, c :: rest =>
    if isPrefixC pattern (c :: rest) then
      repl ++ replaceC pattern repl fuel ((c :: rest).drop pattern.length)
    else
      c :: replaceC pattern repl fuel rest

/-- Python `s.replace(old, new)` for a non-empty `old` (the source only
replaces `"refs/heads/"`): every non-overlapping occurrence is replaced,
scanning left to right. -/
def pyReplace (s old new : String) : String :=
  if old.data.isEmpty then s else ⟨replaceC old.data new.data s.data.length s.data⟩

/-- Python `sep.join(parts)`. -/
def pyJoin (sep : String) : List String → String
  | [] => ""
  | [s] => s
  | s :: rest => s ++ sep ++ pyJoin sep rest

/-! ## JSON payloads and dict access -/

/-- A JSON-like value, the shape of a decoded webhook payload. -/
inductive Json where
  | null
  | bool (b : Bool)
  | num (n : Int)
  | str (s : String)
  | arr (elems : List Json)
  | obj (fields : List (String × Json))

/-- Whether a `Json` value is a JSON object (a Python dict). -/
def Json.isObj : Json → Bool
  | .obj _ => true
  | _ => false

/-- Python truthiness of a JSON value: `None`, `False`, `0`, `""`, `[]` and
`{}` are falsy, everything else truthy. -/
def pyTruthy : Json → Bool
  | .null => false
  | .bool b => b
  | .num n => n != 0
  | .str s => !s.data.isEmpty
  | .arr elems => !elems.isEmpty
  | .obj fields => !fields.isEmpty

/-- Python `d.get(key, dflt)`: on a dict, the stored value (which may be
`null`) or the default; on any other receiver an `AttributeError` is
raised. -/
def pyGet (j : Json) (key : String) (dflt : Json) : Except String Json :=
  match j with
  | .obj fields => .ok ((fields.lookup key).getD dflt)
  | _ => .error "AttributeError"

/-- Total counterpart of `pyGet`, used to state results: on a non-dict it
yields the default instead of an error. -/
def jget (j : Json) (key : String) (dflt : Json) : Json :=
  match j with
  | .obj fields => (fields.lookup key).getD dflt
  | _ => dflt

/-! ## Event parsing -/

/-- The fields `PullRequestHandler.parse_pull_request_event` stores on the
handler.  Values are raw JSON values: a missing payload field is stored as
`null` (Python `None`). -/
structure PullRequestEvent where
  action : Json
  pull_request_index : Json
  repo_owner : Json
  repo_name : Json

/-- `PullRequestHandler.parse_pull_request_event` (webhook_handler.py lines
53-60): each `.get` chain is modelled step by step, so a present nested
field that is not a dict raises exactly where Python would. -/
def parse_pull_request_event (webhook_data : Json) : Except String PullRequestEvent := do
  let action ← pyGet webhook_data "action" .null
  let pull_request ← pyGet webhook_data "pull_request" (.obj [])
  let index ← pyGet pull_request "number" .null
  let base ← pyGet pull_request "base" (.obj [])
  let repo ← pyGet base "repo" (.obj [])
  let owner ← pyGet repo "owner" (.obj [])
  let login ← pyGet owner "login" .null
  let name ← pyGet repo "name" .null
  return ⟨action, index, login, name⟩

/-- The fields `PushHandler.parse_push_event` stores on the handler.
`commit_list` is stored raw, exactly as `webhook_data.get("commits", [])`
returns it. -/
structure PushEvent where
  repo_owner : Json
  repo_name : Json
  branch_name : String
  commit_list : Json

/-- `PushHandler.parse_push_event` (webhook_handler.py lines 214-219).
`webhook_data.get("ref", "").replace("refs/heads/", "")` raises
`AttributeError` when the stored `ref` is present but not a string; Python
`str.replace` replaces every occurrence. -/
def parse_push_event (webhook_data : Json) : Except String PushEvent := do
  let repository ← pyGet webhook_data "repository" (.obj [])
  let owner ← pyGet repository "owner" (.obj [])
  let login ← pyGet owner "login" .null
  let name ← pyGet repository "name" .null
  let refValue ← pyGet webhook_data "ref" (.str "")
  let refString ←
    match refValue with
    | .str s => Except.ok s
    | _ => Except.error "AttributeError"
  let branch := pyReplace refString "refs/heads/" ""
  let commits ← pyGet webhook_data "commits" (.arr [])
  return ⟨login, name, branch, commits⟩

/-! ## Change retrieval: pull requests -/

/-- One entry of the PR file-list endpoint response
(`{filename, patch, additions, deletions}`); `none` models a missing (or
JSON-null) key, read through `file.get(...)`. -/
structure PRFile where
  filename : Option String
  patch : Option String
  additions : Option Int
  deletions : Option Int
deriving DecidableEq

/-- One change dict built by the handler.  `additions_deletions` is `some`
exactly when the dict literal in the source includes the `"additions"` and
`"deletions"` keys (the pull-request path does, the push compare path does
not). -/
structure FileChange where
  old_path : Option String
  new_path : Option String
  diff : String
  additions_deletions : Option (Int × Int)
deriving DecidableEq

/-- `PullRequestHandler._extract_file_diff`, loop body (webhook_handler.py
lines 134-143): a boundary line (`diff --git ...`) containing the filename
always takes the first branch, even when capture is already on, so it is
appended and scanning continues; a boundary line not containing the
filename ends capture (`break`) once capture is on. -/
def extractLoop (filename : String) : List String → Bool → List String
  | [], _ => []
  | line :: rest, in_file =>
    if pyStartsWith line "diff --git" && pyContains line filename then
      line :: extractLoop filename rest true
    else if in_file then
      if pyStartsWith line "diff --git" then []
      else line :: extractLoop filename rest true
    else
      extractLoop filename rest false

/-- `PullRequestHandler._extract_file_diff` (webhook_handler.py lines
128-145).  The trailing `if result_lines else ""` of the source is
absorbed: joining the empty list already yields `""`. -/
def extract_file_diff (full_diff : String) (filename : String) : String :=
  pyJoin "\n" (extractLoop filename (pySplit full_diff "\n") false)

/-- A raw-text HTTP response (status code and body), as returned by the
whole-PR `.diff` endpoint. -/
structure HttpTextResponse where
  status : Nat
  text : String
deriving DecidableEq

/-- The per-file body of the loop in
`PullRequestHandler.get_pull_request_changes` (webhook_handler.py lines
80-111): take `patch` from the file entry; when it is falsy (absent, null
or empty, all modelled as `""`), fall back to the whole-PR `.diff` endpoint
response and, on a 200 with a truthy filename contained in the text,
extract that file's segment. -/
def map_pr_file (diff_response : HttpTextResponse) (file : PRFile) : FileChange :=
  let patch := file.patch.getD ""
  let patch :=
    if patch.data.isEmpty then
      if diff_response.status = 200 then
        match file.filename with
        | some filename =>
          if !filename.data.isEmpty && pyContains diff_response.text filename then
            extract_file_diff diff_response.text filename
          else patch
        | none => patch
      else patch
    else patch
  { old_path := file.filename
    new_path := file.filename
    diff := patch
    additions_deletions := some (file.additions.getD 0, file.deletions.getD 0) }

/-- A response of the PR file-list endpoint: status code and decoded file
list. -/
structure FilesResponse where
  status : Nat
  files : List PRFile
deriving DecidableEq

/-- `max_retries` in `get_pull_request_changes`. -/
def max_retries : Nat := 3

/-- `retry_delay` (seconds) in `get_pull_request_changes`. -/
def retry_delay : Nat := 10

/-- Observable outcome of `get_pull_request_changes`: the returned list,
the number of requests issued to the PR file-list endpoint, and the number
of `time.sleep(retry_delay)` calls performed. -/
structure PRFetchResult where
  changes : List FileChange
  file_list_requests : Nat
  sleeps : Nat
deriving DecidableEq

/-- The `for attempt in range(max_retries)` loop of
`PullRequestHandler.get_pull_request_changes` (webhook_handler.py lines
65-126) over the remaining attempt indices.  `respond` gives the file-list
endpoint's response to each attempt; exhausting the loop returns `[]`.  A
200 with a non-empty list returns the mapped changes at once; a 200 with an
empty list sleeps and retries; any other status returns `[]` at once. -/
def prRetryLoop (respond : Nat → FilesResponse) (diff_response : HttpTextResponse) :
    List Nat → PRFetchResult
  | [] => ⟨[], 0, 0⟩
  | attempt :: rest =>
    let response := respond attempt
    if response.status = 200 then
      if response.files.isEmpty then
        let r := prRetryLoop respond diff_response rest
        ⟨r.changes, r.file_list_requests + 1, r.sleeps + 1⟩
      else
        ⟨response.files.map (map_pr_file diff_response), 1, 0⟩
    else
      ⟨[], 1, 0⟩

/-- `PullRequestHandler.get_pull_request_changes` (webhook_handler.py lines
62-126), instrumented with request and sleep counts. -/
def get_pull_request_changes (respond : Nat → FilesResponse)
    (diff_response : HttpTextResponse) : PRFetchResult :=
  prRetryLoop respond diff_response (List.range max_retries)

/-! ## Change retrieval: pushes -/

/-- One entry of the compare endpoint's `files` array
(`{filename, patch}`). -/
structure CompareFile where
  filename : Option String
  patch : Option String
deriving DecidableEq

/-- A response of the compare endpoint. -/
structure CompareResponse where
  status : Nat
  files : List CompareFile
deriving DecidableEq

/-- `PushHandler.repository_compare` (webhook_handler.py lines 265-287),
applied to the response the compare endpoint returned.  Note the change
dicts it builds carry no `"additions"`/`"deletions"` keys. -/
def repository_compare (response : CompareResponse) : List FileChange :=
  if response.status = 200 then
    response.files.map fun file =>
      { old_path := file.filename
        new_path := file.filename
        diff := file.patch.getD ""
        additions_deletions := none }
  else []

/-- `PushHandler.get_push_changes` (webhook_handler.py lines 289-304).
`before` and `after` are the values of `webhook_data.get("before", "")` and
`webhook_data.get("after", "")`, with an absent or JSON-null field read as
`""` (equally falsy in the source).  `compare` gives the compare endpoint's
response to a `(before, after)` request; the second component of the result
records, in order, the compare requests issued. -/
def get_push_changes (commit_list : List Json) (before after : String)
    (compare : String → String → CompareResponse) :
    List FileChange × List (String × String) :=
  if commit_list.isEmpty then ([], [])
  else if !before.data.isEmpty && !after.data.isEmpty then
    if pyStartsWith after "0000000" then ([], [])
    else
      let before := if pyStartsWith before "0000000" then after ++ "^" else before
      (repository_compare (compare before after), [(before, after)])
  else ([], [])

/-! ## Change filter -/

/-- The suffix list parsed from the `SUPPORTED_EXTENSIONS` configuration
string (webhook_handler.py lines 17-19): split on `","`, strip each entry,
drop entries that strip to the empty string. -/
def parseExtensions (supported_extensions_str : String) : List String :=
  ((pySplit supported_extensions_str ",").map pyStrip).filter fun ext => !ext.data.isEmpty

/-- `filter_changes` (webhook_handler.py lines 9-39), with the value of the
`SUPPORTED_EXTENSIONS` environment variable (`""` when unset) passed
explicitly.  A change passes when `change.get("new_path", "")` ends with
one of the parsed suffixes; `none` (a stored Python `None`) is read as `""`
— Python itself would raise on `None` here, so theorems restrict to string
paths. -/
def filter_changes (changes : List FileChange) (supported_extensions_str : String) :
    List FileChange :=
  if supported_extensions_str.data.isEmpty then []
  else
    let supported_extensions := parseExtensions supported_extensions_str
    if supported_extensions.isEmpty then []
    else
      changes.filter fun change =>
        supported_extensions.any fun ext => pyEndsWith (change.new_path.getD "") ext

/-! ## Branch protection -/

/-- First scan of a glob bracket expression body: splits at the first `]`,
or fails when the expression is unterminated. -/
def scanBracketBody : List Char → Option (List Char × List Char)
  | [] => none
  | c :: rest =>
    if c == ']' then some ([], rest)
    else (scanBracketBody rest).map fun p => (c :: p.1, p.2)

/-- Modelled from the spec: bracket-expression scanning of shell-glob
patterns, as in the platform `fnmatch` library (outside this repository's
source): after `[`, a leading `!` negates, and a `]` directly after `[` or
`[!` is a literal member. -/
def scanBracket : List Char → Option (Bool × List Char × List Char)
  | '!' :: ']' :: rest => (scanBracketBody rest).map fun p => (true, ']' :: p.1, p.2)
  | '!' :: rest => (scanBracketBody rest).map fun p => (true, p.1, p.2)
  | ']' :: rest => (scanBracketBody rest).map fun p => (false, ']' :: p.1, p.2)
  | rest => (scanBracketBody rest).map fun p => (false, p.1, p.2)

/-- Membership of a character in a bracket expression body: `a-b` is a
range when a character follows the dash, otherwise characters are literal
members. -/
def bracketMember : List Char → Char → Bool
  | lo :: '-' :: hi :: rest, c => (lo ≤ c && c ≤ hi) || bracketMember rest c
  | m :: rest, c => (m == c) || bracketMember rest c
  | [], _ => false

/-- Modelled from the spec: one step of shell-glob matching (`*`, `?`,
bracket character classes; an unterminated `[` is a literal), fuelled —
every recursive call strictly shrinks the pattern length plus the name
length, so `pattern.length + name.length + 1` fuel always suffices. -/
def globMatchC : Nat → List Char → List Char → Bool
  | 0, _, _ => false
  | _ + 1, [], name => name.isEmpty
  | fuel + 1, p :: ps, name =>
    if p == '*' then
      globMatchC fuel ps name ||
        (match name with
         | [] => false
         | _ :: name2 => globMatchC fuel (p :: ps) name2)
    else if p == '?' then
      match name with
      | [] => false
      | _ :: name2 => globMatchC fuel ps name2
    else if p == '[' then
      match scanBracket ps with
      | some (neg, body, rest) =>
        match name with
        | [] => false
        | c :: name2 => (bracketMember body c != neg) && globMatchC fuel rest name2
      | none =>
        match name with
        | [] => false
        | c :: name2 => (c == '[') && globMatchC fuel ps name2
    else
      match name with
      | [] => false
      | c :: name2 => (p == c) && globMatchC fuel ps name2

/-- Modelled from the spec: `fnmatch.fnmatch(name, pattern)` — shell-glob
matching of a branch name against a protection pattern (case-sensitive, as
on posix).  The Python standard library provides it; it is outside this
repository's source. -/
def fnmatch (name pattern : String) : Bool :=
  globMatchC (pattern.data.length + name.data.length + 1) pattern.data name.data

/-- A response of the branch-protection endpoint; `rules` holds the
`"branch_name"` value of each returned item. -/
structure ProtectionResponse where
  status : Nat
  rules : List String
deriving DecidableEq

/-- `PullRequestHandler.target_branch_protected` (webhook_handler.py lines
180-200).  The target branch is read from
`webhook_data["pull_request"]["base"]["ref"]` with dict defaults; on a 200,
`any(...)` evaluates `fnmatch` lazily, so with a non-string branch it
raises `TypeError` only when at least one rule exists; any other status
yields `False`. -/
def target_branch_protected (webhook_data : Json) (response : ProtectionResponse) :
    Except String Bool := do
  let pull_request ← pyGet webhook_data "pull_request" (.obj [])
  let base ← pyGet pull_request "base" (.obj [])
  let target_branch ← pyGet base "ref" .null
  if response.status = 200 then
    match target_branch with
    | .str branch => return response.rules.any fun pat => fnmatch branch pat
    | _ =>
      if response.rules.isEmpty then return false
      else Except.error "TypeError"
  else
    return false

/-! ## Spec-side definitions for refinement comparison -/

/-- Modelled from the spec: `extractFileDiff` as the spec's section 4.3 and
claim C2 word it — capture starts at the first file-boundary line
containing the filename and ends immediately before the next file-boundary
line of ANY kind (or end of text); empty when no boundary line contains
the filename. -/
def spec_extract_file_diff (full_diff : String) (filename : String) : String :=
  match (pySplit full_diff "\n").dropWhile
      (fun l => !(pyStartsWith l "diff --git" && pyContains l filename)) with
  | [] => ""
  | l :: rest =>
    pyJoin "\n" (l :: rest.takeWhile fun x => !pyStartsWith x "diff --git")

/-! ## Helper lemmas -/

/-- `pyGet` on a dict never raises and agrees with its total counterpart
`jget`. -/
theorem pyGet_of_isObj (j : Json) (key : String) (dflt : Json) (h : j.isObj = true) :
    pyGet j key dflt = .ok (jget j key dflt) := by
  cases j <;> simp_all [pyGet, jget, Json.isObj]

/-- A string with a non-empty prefix is non-empty. -/
theorem data_ne_nil_of_pyStartsWith_sentinel (s : String)
    (h : pyStartsWith s "0000000" = true) : s.data.isEmpty = false := by
  cases hd : s.data with
  | nil =>
    have hfalse : isPrefixC "0000000".data [] = false := by decide
    rw [pyStartsWith, hd, hfalse] at h
    exact absurd h (by decide)
  | cons c cs => rfl

/-- A non-empty string has non-empty character data. -/
theorem data_isEmpty_eq_false_of_ne (s : String) (h : s ≠ "") : s.data.isEmpty = false := by
  cases s with
  | mk d =>
    cases d with
    | nil => exact absurd rfl h
    | cons c cs => rfl

/-- Once capture is on, `extractLoop` takes lines up to (excluding) the
first boundary line that does not contain the filename. -/
theorem extractLoop_true_eq (filename : String) :
    ∀ ls : List String,
      extractLoop filename ls true =
        ls.takeWhile fun l => !(pyStartsWith l "diff --git" && !pyContains l filename)
  | [] => rfl
  | line :: rest => by
    cases hb : pyStartsWith line "diff --git" <;>
      cases hc : pyContains line filename <;>
        simp [extractLoop, hb, hc, extractLoop_true_eq filename rest, List.takeWhile]

/-- Before capture starts, `extractLoop` drops lines up to the first
boundary line containing the filename, then captures as in
`extractLoop_true_eq`. -/
theorem extractLoop_false_eq (filename : String) :
    ∀ ls : List String,
      extractLoop filename ls false =
        (ls.dropWhile fun l => !(pyStartsWith l "diff --git" && pyContains l filename)).takeWhile
          fun l => !(pyStartsWith l "diff --git" && !pyContains l filename)
  | [] => rfl
  | line :: rest => by
    cases hb : pyStartsWith line "diff --git" <;>
      cases hc : pyContains line filename <;>
        simp [extractLoop, hb, hc, extractLoop_false_eq filename rest,
          extractLoop_true_eq filename rest, List.dropWhile, List.takeWhile]

/-- The retry loop issues at most one file-list request and sleeps at most
once per remaining attempt. -/
theorem prRetryLoop_counts_le (respond : Nat → FilesResponse)
    (diff_response : HttpTextResponse) :
    ∀ attempts : List Nat,
      (prRetryLoop respond diff_response attempts).file_list_requests ≤ attempts.length ∧
      (prRetryLoop respond diff_response attempts).sleeps ≤ attempts.length
  | [] => by simp [prRetryLoop]
  | attempt :: rest => by
    obtain ⟨ih1, ih2⟩ := prRetryLoop_counts_le respond diff_response rest
    by_cases h200 : (respond attempt).status = 200
    · by_cases hemp : (respond attempt).files.isEmpty = true
      · simp only [prRetryLoop, h200, hemp, if_true, List.length_cons]
        constructor <;> simp <;> omega
      · simp only [prRetryLoop, h200, hemp, if_true, if_false, List.length_cons]
        constructor <;> simp
    · simp only [prRetryLoop, h200, if_false, List.length_cons]
      constructor <;> simp

/-! ## Claims -/

/-- Claim C2 (corrected): `_extract_file_diff` returns the contiguous block
starting at the first file-boundary line containing the filename, up to but
not including the first subsequent boundary line that does NOT contain the
filename (boundary lines containing the filename are captured and do not
stop the scan), or end of text; the empty string when no boundary line
contains the filename. -/
theorem C2_block_characterization (full_diff filename : String) :
    extract_file_diff full_diff filename =
      pyJoin "\n"
        (((pySplit full_diff "\n").dropWhile
            (fun l => !(pyStartsWith l "diff --git" && pyContains l filename))).takeWhile
          fun l => !(pyStartsWith l "diff --git" && !pyContains l filename)) := by
  unfold extract_file_diff
  rw [extractLoop_false_eq]

/-- Claim C2, counterexample to the claim as stated: extracting `a.py` from
a diff whose next boundary line also contains `a.py` (the file
`a.py.bak`) does not stop at that boundary line, so the result differs
from the spec-worded extraction that stops at the next boundary of any
kind. -/
theorem C2_counterexample :
    extract_file_diff
        "diff --git a/a.py b/a.py\n+x\ndiff --git a/a.py.bak b/a.py.bak\n+y\ndiff --git a/z.c b/z.c\n+z"
        "a.py" ≠
      spec_extract_file_diff
        "diff --git a/a.py b/a.py\n+x\ndiff --git a/a.py.bak b/a.py.bak\n+y\ndiff --git a/z.c b/z.c\n+z"
        "a.py" := by decide

/-- Claim C3 (confirmed): `filter_changes` returns the order-preserving
sublist of exactly those entries whose `new_path` ends with at least one
configured suffix, and when the configured suffix string parses to no
suffixes (empty, absent, or only whitespace/empty entries) the result is
the empty list even for non-empty input.  The hypothesis restricts to
changes whose `new_path` is an actual string, the domain on which the
Python source is defined. -/
theorem C3_filter_characterization (supported_extensions_str : String)
    (changes : List FileChange) (hpaths : ∀ c ∈ changes, c.new_path.isSome) :
    filter_changes changes supported_extensions_str =
      changes.filter
        (fun c => (parseExtensions supported_extensions_str).any
          fun ext => pyEndsWith (c.new_path.getD "") ext) ∧
    (parseExtensions supported_extensions_str = [] →
      filter_changes changes supported_extensions_str = []) := by
  by_cases hs : supported_extensions_str.data.isEmpty = true
  · have hstr : supported_extensions_str = "" := by
      cases supported_extensions_str with
      | mk d => cases d with
        | nil => rfl
        | cons c cs => exact absurd hs (by simp)
    subst hstr
    have hparse : parseExtensions "" = [] := by decide
    constructor
    · simp [filter_changes, hparse]
    · intro _; simp [filter_changes]
  · by_cases he : (parseExtensions supported_extensions_str).isEmpty = true
    · have hnil : parseExtensions supported_extensions_str = [] := by
        simpa [List.isEmpty_iff] using he
      constructor
      · simp [filter_changes, hs, he, hnil]
      · intro _; simp [filter_changes, hs, he]
    · have hnil : parseExtensions supported_extensions_str ≠ [] := by
        simpa [List.isEmpty_iff] using he
      constructor
      · simp [filter_changes, hs, he]
      · intro h; exact absurd h hnil

/-- Claim C3, witness: with suffix configuration `.py`, a `.py` change is
kept and a `.c` change is dropped, in order. -/
theorem C3_witness :
    (∀ c ∈ [FileChange.mk (some "a.py") (some "a.py") "" none,
            FileChange.mk (some "b.c") (some "b.c") "" none], c.new_path.isSome) ∧
    (filter_changes
        [FileChange.mk (some "a.py") (some "a.py") "" none,
         FileChange.mk (some "b.c") (some "b.c") "" none] ".py" =
      List.filter
        (fun c => (parseExtensions ".py").any fun ext => pyEndsWith (c.new_path.getD "") ext)
        [FileChange.mk (some "a.py") (some "a.py") "" none,
         FileChange.mk (some "b.c") (some "b.c") "" none] ∧
    (parseExtensions ".py" = [] →
      filter_changes
        [FileChange.mk (some "a.py") (some "a.py") "" none,
         FileChange.mk (some "b.c") (some "b.c") "" none] ".py" = [])) :=
  ⟨by decide,
   C3_filter_characterization ".py"
     [FileChange.mk (some "a.py") (some "a.py") "" none,
      FileChange.mk (some "b.c") (some "b.c") "" none] (by decide)⟩

/-- Claim C1 (corrected): `get_pull_request_changes` issues at most 3
file-list requests, and stops the instant an attempt returns status 200
with a non-empty file list (returning the mapped changes) or any status
other than 200 (returning the empty list immediately, with no further
retries).  The stop condition is a strict `status == 200` test, not
"any 2xx". -/
theorem C1_retry_behavior (respond : Nat → FilesResponse) (diff_response : HttpTextResponse) :
    (get_pull_request_changes respond diff_response).file_list_requests ≤ 3 ∧
    ∀ k, k < 3 →
      (∀ j, j < k → (respond j).status = 200 ∧ (respond j).files = []) →
      ¬((respond k).status = 200 ∧ (respond k).files = []) →
      (get_pull_request_changes respond diff_response).file_list_requests = k + 1 ∧
      (get_pull_request_changes respond diff_response).changes =
        (if (respond k).status = 200
         then (respond k).files.map (map_pr_file diff_response) else []) := by
  have hrange : List.range max_retries = [0, 1, 2] := rfl
  constructor
  · have h := (prRetryLoop_counts_le respond diff_response (List.range max_retries)).1
    simpa [get_pull_request_changes, hrange] using h
  · intro k hk hprev hstop
    have resolve : ∀ m : Nat, ¬((respond m).status = 200 ∧ (respond m).files = []) →
        ∀ rest : List Nat,
          prRetryLoop respond diff_response (m :: rest) =
            ⟨(if (respond m).status = 200
              then (respond m).files.map (map_pr_file diff_response) else []), 1, 0⟩ := by
      intro m hm rest
      by_cases h200 : (respond m).status = 200
      · have hne : (respond m).files ≠ [] := fun h => hm ⟨h200, h⟩
        cases hf : (respond m).files with
        | nil => exact absurd hf hne
        | cons a l => simp [prRetryLoop, h200, hf]
      · simp [prRetryLoop, h200]
    have step : ∀ m : Nat, (respond m).status = 200 → (respond m).files = [] →
        ∀ rest : List Nat,
          prRetryLoop respond diff_response (m :: rest) =
            ⟨(prRetryLoop respond diff_response rest).changes,
             (prRetryLoop respond diff_response rest).file_list_requests + 1,
             (prRetryLoop respond diff_response rest).sleeps + 1⟩ := by
      intro m h200 hf rest
      simp [prRetryLoop, h200, hf]
    interval_cases k
    · rw [get_pull_request_changes, hrange, resolve 0 hstop]
      exact ⟨rfl, rfl⟩
    · obtain ⟨h0s, h0f⟩ := hprev 0 (by omega)
      rw [get_pull_request_changes, hrange, step 0 h0s h0f, resolve 1 hstop]
      exact ⟨rfl, rfl⟩
    · obtain ⟨h0s, h0f⟩ := hprev 0 (by omega)
      obtain ⟨h1s, h1f⟩ := hprev 1 (by omega)
      rw [get_pull_request_changes, hrange, step 0 h0s h0f, step 1 h1s h1f,
        resolve 2 hstop]
      exact ⟨rfl, rfl⟩

/-- Claim C1, witness: the first attempt returns 200 with an empty list,
the second returns 200 with one file; the loop issues exactly 2 requests
and returns that file's mapped change. -/
theorem C1_witness :
    ((get_pull_request_changes
        (fun n => if n = 0 then ⟨200, []⟩ else ⟨200, [⟨some "a.py", some "+x", some 1, some 0⟩]⟩)
        ⟨200, ""⟩).file_list_requests ≤ 3) ∧
    (1 < 3) ∧
    ((get_pull_request_changes
        (fun n => if n = 0 then ⟨200, []⟩ else ⟨200, [⟨some "a.py", some "+x", some 1, some 0⟩]⟩)
        ⟨200, ""⟩).file_list_requests = 2) := by
  have h := C1_retry_behavior
    (fun n => if n = 0 then ⟨200, []⟩ else ⟨200, [⟨some "a.py", some "+x", some 1, some 0⟩]⟩)
    ⟨200, ""⟩
  refine ⟨h.1, by omega, ?_⟩
  have h2 := (h.2 1 (by omega)
    (by intro j hj; interval_cases j; exact ⟨rfl, rfl⟩)
    (by intro hcontra; exact absurd hcontra.2 (by decide))).1
  exact h2

/-- Claim C1, counterexample to the claim as stated: a 201 response (a 2xx
status) with a non-empty file list does not make the loop return the mapped
changes — the source tests `status_code == 200` strictly and returns the
empty list for every other status, 2xx included. -/
theorem C1_counterexample :
    (get_pull_request_changes
        (fun _ => ⟨201, [⟨some "a.py", some "+x", some 1, some 0⟩]⟩) ⟨200, ""⟩).changes = [] ∧
    (200 ≤ 201 ∧ 201 < 300) ∧
    ([(⟨some "a.py", some "+x", some 1, some 0⟩ : PRFile)] ≠ []) ∧
    (List.map (map_pr_file ⟨200, ""⟩) [(⟨some "a.py", some "+x", some 1, some 0⟩ : PRFile)] ≠ []) ∧
    (get_pull_request_changes
        (fun _ => ⟨201, [⟨some "a.py", some "+x", some 1, some 0⟩]⟩) ⟨200, ""⟩).changes ≠
      List.map (map_pr_file ⟨200, ""⟩) [(⟨some "a.py", some "+x", some 1, some 0⟩ : PRFile)] := by
  refine ⟨by decide, ⟨by omega, by omega⟩, by decide, by decide, by decide⟩

/-- Claim C9 (corrected): the retry loop performs the fixed
`retry_delay = 10` second sleep at most THREE times — `time.sleep` runs
inside every iteration whose response is an empty 200 list, including the
final one, so the worst case blocks for 3 × 10 time units, not 2 × 10. -/
theorem C9_sleep_bound (respond : Nat → FilesResponse) (diff_response : HttpTextResponse) :
    (get_pull_request_changes respond diff_response).sleeps ≤ 3 ∧
    (get_pull_request_changes respond diff_response).sleeps * retry_delay ≤ 3 * retry_delay := by
  have h := (prRetryLoop_counts_le respond diff_response (List.range max_retries)).2
  have h3 : (get_pull_request_changes respond diff_response).sleeps ≤ 3 := by
    simpa [get_pull_request_changes, show List.range max_retries = [0, 1, 2] from rfl] using h
  exact ⟨h3, Nat.mul_le_mul_right retry_delay h3⟩

/-- Claim C9, counterexample to the claim as stated: when every attempt
returns an empty 200 list the loop sleeps three times, exceeding the
claimed bound of two delay operations. -/
theorem C9_counterexample :
    (get_pull_request_changes (fun _ => ⟨200, []⟩) ⟨200, ""⟩).sleeps = 3 ∧
    ¬((get_pull_request_changes (fun _ => ⟨200, []⟩) ⟨200, ""⟩).sleeps ≤ 2) := by
  exact ⟨by decide, by decide⟩

/-- Claim C4 (confirmed): for a push with a non-empty commit list whose
`before` starts with the zero-sha sentinel and whose `after` is non-empty
and not the sentinel, exactly one compare call is issued, with the caret
appended to `after` as the `before` argument and `after` itself as the
`after` argument. -/
theorem C4_new_branch_compare (commit_list : List Json) (before after : String)
    (compare : String → String → CompareResponse)
    (hcommits : commit_list ≠ [])
    (hbefore : pyStartsWith before "0000000" = true)
    (hafter : after ≠ "")
    (hafter_sha : pyStartsWith after "0000000" = false) :
    (get_push_changes commit_list before after compare).2 = [(after ++ "^", after)] := by
  have hc : commit_list.isEmpty = false := by
    cases commit_list with
    | nil => exact absurd rfl hcommits
    | cons a l => rfl
  have hb : before.data.isEmpty = false := data_ne_nil_of_pyStartsWith_sentinel before hbefore
  have ha : after.data.isEmpty = false := data_isEmpty_eq_false_of_ne after hafter
  simp [get_push_changes, hc, hb, ha, hafter_sha, hbefore]

/-- Claim C4, witness: `before = "0000000abc"`, `after = "abc123"` issues
the single compare call `("abc123" ++ "^", "abc123")`. -/
theorem C4_witness :
    ([Json.obj []] ≠ ([] : List Json)) ∧
    (pyStartsWith "0000000abc" "0000000" = true) ∧
    ("abc123" ≠ "") ∧
    (pyStartsWith "abc123" "0000000" = false) ∧
    (get_push_changes [Json.obj []] "0000000abc" "abc123" (fun _ _ => ⟨200, []⟩)).2 =
      [("abc123" ++ "^", "abc123")] :=
  ⟨List.cons_ne_nil _ _, by decide, by decide, by decide,
   C4_new_branch_compare [Json.obj []] "0000000abc" "abc123" (fun _ _ => ⟨200, []⟩)
     (List.cons_ne_nil _ _) (by decide) (by decide) (by decide)⟩

/-- Claim C5 (confirmed): a push whose `after` starts with the zero-sha
sentinel, or whose commit list is empty, yields the empty change list with
no compare call issued. -/
theorem C5_no_diff (commit_list : List Json) (before after : String)
    (compare : String → String → CompareResponse)
    (h : pyStartsWith after "0000000" = true ∨ commit_list = []) :
    get_push_changes commit_list before after compare = ([], []) := by
  rcases h with h | h
  · by_cases hc : commit_list.isEmpty = true
    · simp [get_push_changes, hc]
    · by_cases hba : (!before.data.isEmpty && !after.data.isEmpty) = true
      · simp [get_push_changes, hc, hba, h]
      · simp [get_push_changes, hc, hba]
  · subst h
    simp [get_push_changes]

/-- Claim C5, witness: a branch-deletion push (`after` all-zero sentinel)
with one commit returns no changes and issues no compare call. -/
theorem C5_witness :
    (pyStartsWith "0000000def" "0000000" = true ∨ ([Json.obj []] : List Json) = []) ∧
    get_push_changes [Json.obj []] "abc123" "0000000def" (fun _ _ => ⟨200, []⟩) = ([], []) :=
  ⟨Or.inl (by decide),
   C5_no_diff [Json.obj []] "abc123" "0000000def" (fun _ _ => ⟨200, []⟩) (Or.inl (by decide))⟩

/-- Claim C10 (confirmed): a push with a non-empty commit list but a
missing or empty `before` or `after` SHA yields the empty change list with
no compare call issued (an absent or JSON-null field reads as `""`). -/
theorem C10_missing_sha (commit_list : List Json) (before after : String)
    (compare : String → String → CompareResponse)
    (hcommits : commit_list ≠ [])
    (h : before = "" ∨ after = "") :
    get_push_changes commit_list before after compare = ([], []) := by
  have hba : (!before.data.isEmpty && !after.data.isEmpty) = false := by
    rcases h with h | h <;> subst h <;> simp
  by_cases hc : commit_list.isEmpty = true
  · simp [get_push_changes, hc]
  · simp [get_push_changes, hc, hba]

/-- Claim C10, witness: one commit but an empty `before` SHA returns no
changes and issues no compare call. -/
theorem C10_witness :
    ([Json.obj []] ≠ ([] : List Json)) ∧
    (("" : String) = "" ∨ ("abc123" : String) = "") ∧
    get_push_changes [Json.obj []] "" "abc123" (fun _ _ => ⟨200, []⟩) = ([], []) :=
  ⟨List.cons_ne_nil _ _, Or.inl rfl,
   C10_missing_sha [Json.obj []] "" "abc123" (fun _ _ => ⟨200, []⟩)
     (List.cons_ne_nil _ _) (Or.inl rfl)⟩

/-- Bind on a successful `Except` applies the continuation. -/
theorem except_bind_ok {α β : Type} (a : α) (f : α → Except String β) :
    (Except.ok a >>= f : Except String β) = f a := rfl

/-- `pure` on `Except` is `Except.ok`. -/
theorem except_pure {α : Type} (a : α) : (pure a : Except String α) = Except.ok a := rfl

/-- Claim C6 (confirmed): when the payload carries a string target branch,
`target_branch_protected` returns true exactly when the branch-protection
endpoint answered 200 and the branch matches at least one returned pattern
under shell-glob semantics, and returns false on any non-success status. -/
theorem C6_branch_protected (webhook_data : Json) (response : ProtectionResponse)
    (branch : String)
    (h1 : webhook_data.isObj = true)
    (h2 : (jget webhook_data "pull_request" (Json.obj [])).isObj = true)
    (h3 : (jget (jget webhook_data "pull_request" (Json.obj [])) "base" (Json.obj [])).isObj
      = true)
    (h4 : jget (jget (jget webhook_data "pull_request" (Json.obj [])) "base" (Json.obj []))
      "ref" Json.null = Json.str branch) :
    target_branch_protected webhook_data response =
      .ok (if response.status = 200 then response.rules.any fun pat => fnmatch branch pat
           else false) := by
  unfold target_branch_protected
  simp only [pyGet_of_isObj _ _ _ h1, except_bind_ok, pyGet_of_isObj _ _ _ h2,
    pyGet_of_isObj _ _ _ h3, h4]
  by_cases hst : response.status = 200 <;> simp [hst, except_pure]

/-- Claim C6, witness: branch `release/1.0` against the single pattern
`release/*` on a 200 response yields true. -/
theorem C6_witness :
    target_branch_protected
        (Json.obj [("pull_request",
          Json.obj [("base", Json.obj [("ref", Json.str "release/1.0")])])])
        ⟨200, ["release/*"]⟩ =
      .ok true := by
  have h := C6_branch_protected
    (Json.obj [("pull_request",
      Json.obj [("base", Json.obj [("ref", Json.str "release/1.0")])])])
    ⟨200, ["release/*"]⟩ "release/1.0" rfl rfl rfl rfl
  rw [h]
  exact congrArg Except.ok (by decide)

/-- Claim C7 (corrected): changes built by the pull-request path carry
`additions`/`deletions` that default to 0 when the upstream entry omits
them and are non-negative whenever the upstream values are; changes built
by the push compare path carry NO `additions`/`deletions` fields at
all. -/
theorem C7_additions_deletions :
    (∀ (diff_response : HttpTextResponse) (file : PRFile),
      (∀ a, file.additions = some a → 0 ≤ a) →
      (∀ b, file.deletions = some b → 0 ≤ b) →
      ∃ a b, (map_pr_file diff_response file).additions_deletions = some (a, b) ∧
        0 ≤ a ∧ 0 ≤ b ∧
        (file.additions = none → a = 0) ∧ (file.deletions = none → b = 0)) ∧
    (∀ response : CompareResponse, ∀ c ∈ repository_compare response,
      c.additions_deletions = none) := by
  constructor
  · intro d file ha hb
    refine ⟨file.additions.getD 0, file.deletions.getD 0, rfl, ?_, ?_, ?_, ?_⟩
    · cases hfa : file.additions with
      | none => simp
      | some a => simpa using ha a hfa
    · cases hfb : file.deletions with
      | none => simp
      | some b => simpa using hb b hfb
    · intro h; simp [h]
    · intro h; simp [h]
  · intro response c hc
    unfold repository_compare at hc
    by_cases h : response.status = 200
    · simp only [h, if_true, List.mem_map] at hc
      obtain ⟨file, _, rfl⟩ := hc
      rfl
    · simp [h] at hc

/-- Claim C7, witness: a pull-request file entry with no additions or
deletions supplied maps to a change carrying `additions = deletions = 0`. -/
theorem C7_witness :
    ∃ a b, (map_pr_file ⟨200, ""⟩
        (PRFile.mk (some "a.py") (some "+x") none none)).additions_deletions = some (a, b) ∧
      0 ≤ a ∧ 0 ≤ b ∧
      ((PRFile.mk (some "a.py") (some "+x") none none).additions = none → a = 0) ∧
      ((PRFile.mk (some "a.py") (some "+x") none none).deletions = none → b = 0) :=
  C7_additions_deletions.1 ⟨200, ""⟩ (PRFile.mk (some "a.py") (some "+x") none none)
    (fun a h => Option.noConfusion h) (fun b h => Option.noConfusion h)

/-- Claim C7, counterexample to the claim as stated: the push compare path
builds change dicts without `additions`/`deletions` keys, so a change from
a successful compare carries no such fields. -/
theorem C7_counterexample :
    ¬ ∀ c ∈ repository_compare ⟨200, [CompareFile.mk (some "a.py") (some "+x")]⟩,
        ∃ p : Int × Int, c.additions_deletions = some p := by
  intro h
  obtain ⟨p, hp⟩ :=
    h (FileChange.mk (some "a.py") (some "a.py") "+x" none) (by decide)
  exact Option.noConfusion hp

/-- Claim C8 (corrected): parsing never raises and substitutes defaults for
missing fields PROVIDED each traversed nested field, when present, is a
JSON object (and `ref`, when present, a string): in that case both parsers
return, with every missing field read as null (commits default to `[]`,
`ref` to `""`, the branch name stripping every `refs/heads/`
occurrence). -/
theorem C8_parse_total (webhook_data : Json) (refStr : String)
    (hobj : webhook_data.isObj = true)
    (hpr : (jget webhook_data "pull_request" (Json.obj [])).isObj = true)
    (hbase : (jget (jget webhook_data "pull_request" (Json.obj [])) "base" (Json.obj [])).isObj
      = true)
    (hrepo : (jget (jget (jget webhook_data "pull_request" (Json.obj [])) "base"
      (Json.obj [])) "repo" (Json.obj [])).isObj = true)
    (howner : (jget (jget (jget (jget webhook_data "pull_request" (Json.obj [])) "base"
      (Json.obj [])) "repo" (Json.obj [])) "owner" (Json.obj [])).isObj = true)
    (hrepository : (jget webhook_data "repository" (Json.obj [])).isObj = true)
    (hrowner : (jget (jget webhook_data "repository" (Json.obj [])) "owner"
      (Json.obj [])).isObj = true)
    (href : jget webhook_data "ref" (Json.str "") = Json.str refStr) :
    parse_pull_request_event webhook_data =
      .ok ⟨jget webhook_data "action" Json.null,
           jget (jget webhook_data "pull_request" (Json.obj [])) "number" Json.null,
           jget (jget (jget (jget (jget webhook_data "pull_request" (Json.obj [])) "base"
             (Json.obj [])) "repo" (Json.obj [])) "owner" (Json.obj [])) "login" Json.null,
           jget (jget (jget (jget webhook_data "pull_request" (Json.obj [])) "base"
             (Json.obj [])) "repo" (Json.obj [])) "name" Json.null⟩ ∧
    parse_push_event webhook_data =
      .ok ⟨jget (jget (jget webhook_data "repository" (Json.obj [])) "owner"
             (Json.obj [])) "login" Json.null,
           jget (jget webhook_data "repository" (Json.obj [])) "name" Json.null,
           pyReplace refStr "refs/heads/" "",
           jget webhook_data "commits" (Json.arr [])⟩ := by
  constructor
  · unfold parse_pull_request_event
    simp only [pyGet_of_isObj _ _ _ hobj, except_bind_ok, pyGet_of_isObj _ _ _ hpr,
      pyGet_of_isObj _ _ _ hbase, pyGet_of_isObj _ _ _ hrepo, pyGet_of_isObj _ _ _ howner,
      except_pure]
  · unfold parse_push_event
    simp only [pyGet_of_isObj _ _ _ hobj, except_bind_ok, pyGet_of_isObj _ _ _ hrepository,
      pyGet_of_isObj _ _ _ hrowner, href, except_pure]

/-- Claim C8, witness: the empty payload parses to events whose fields are
all defaults (nulls, empty branch name, empty commit list). -/
theorem C8_witness :
    parse_pull_request_event (Json.obj []) =
      .ok ⟨Json.null, Json.null, Json.null, Json.null⟩ ∧
    parse_push_event (Json.obj []) =
      .ok ⟨Json.null, Json.null, "", Json.arr []⟩ := by
  have h := C8_parse_total (Json.obj []) "" rfl rfl rfl rfl rfl rfl rfl rfl
  exact ⟨h.1, h.2⟩

/-- Claim C8, counterexample to the claim as stated: a payload whose
`pull_request` field is present but is a string, not an object, makes
pull-request parsing raise (`AttributeError` on `.get`), so parsing does
not tolerate EVERY JSON-like payload. -/
theorem C8_counterexample :
    parse_pull_request_event (Json.obj [("pull_request", Json.str "hello")]) =
      .error "AttributeError" := rfl
